import Mathlib

/-!
Verification development for the `flygym` NeuroMechFly MuJoCo environment.

The definitions below are a shallow embedding of the Python sources
`flygym/util/config.py` and `flygym/envs/nmf_mujoco.py`.  Floating-point
quantities are modelled as rationals (the code performs only exact
arithmetic on the quantities the claims are about: sums, means, repeats,
comparisons), the physics engine is modelled as an opaque deterministic
transition on an abstract engine state, and Python exceptions are
modelled with `Except`.
-/

/-! ## String utilities: Python's `needle in haystack` substring test -/

/-- Character-list prefix test, used to embed Python's `in` operator on
strings (`a in b` is substring containment in Python). -/
def charsPfx : List Char → List Char → Bool
  | [], _ => true
  | _ :: _, [] => false
  | c :: cs, d :: ds => c == d && charsPfx cs ds

/-- Character-list substring test: `charsSub needle hay` is true iff
`needle` occurs contiguously in `hay`. -/
def charsSub : List Char → List Char → Bool
  | needle, [] => charsPfx needle []
  | needle, c :: rest => charsPfx needle (c :: rest) || charsSub needle rest

/-- Embedding of Python's `needle in hay` on strings. -/
def pyIn (needle hay : String) : Bool :=
  charsSub needle.data hay.data

/-! ## `flygym/util/config.py`: collision-geometry presets -/

/-- Error raised by `get_collision_geoms` (a Python `ValueError`; the
spec calls this construction-time failure class `ConfigurationError`). -/
inductive ConfigError where
  | unknownCollisionConfig (config : String)
deriving DecidableEq

/-- The leg segments used by the `"legs"` preset in `get_collision_geoms`. -/
def legsDofNames : List String :=
  ["Coxa", "Femur", "Tibia", "Tarsus1", "Tarsus2", "Tarsus3", "Tarsus4", "Tarsus5"]

/-- The leg segments used by the `"legs-no-coxa"` preset. -/
def legsNoCoxaDofNames : List String :=
  ["Femur", "Tibia", "Tarsus1", "Tarsus2", "Tarsus3", "Tarsus4", "Tarsus5"]

/-- The leg segments used by the `"tarsi"` preset. -/
def tarsiDofNames : List String :=
  ["Tarsus1", "Tarsus2", "Tarsus3", "Tarsus4", "Tarsus5"]

/-- The comprehension `f"{side}{pos}{dof}_collision" for side in "LR" for
pos in "FMH" for dof in dofs` shared by the presets of
`get_collision_geoms`. -/
def collisionGeomNames (dofs : List String) : List String :=
  ["L", "R"].flatMap fun side =>
    ["F", "M", "H"].flatMap fun pos =>
      dofs.map fun dof => side ++ pos ++ dof ++ "_collision"

/-- Embedding of `flygym.util.config.get_collision_geoms`.  Note that the
Python function's default argument is `config="all"` and the docstring of
`NeuroMechFlyMuJoCo.__init__` lists `"all"` among the accepted presets,
yet the if/elif chain has no `"all"` branch, so `"all"` falls through to
the `ValueError`. -/
def getCollisionGeoms (config : String) : Except ConfigError (List String) :=
  if config == "legs" then Except.ok (collisionGeomNames legsDofNames)
  else if config == "legs-no-coxa" then Except.ok (collisionGeomNames legsNoCoxaDofNames)
  else if config == "tarsi" then Except.ok (collisionGeomNames tarsiDofNames)
  else if config == "none" then Except.ok []
  else Except.error (ConfigError.unknownCollisionConfig config)

/-- A collision spec handed to the constructor: either a preset name
(Python `str`) or an explicit geometry-name list (Python `list`). -/
inductive CollisionSpec where
  | preset (s : String)
  | explicit (l : List String)

/-- Embedding of the collision-spec parsing performed in
`NeuroMechFlyMuJoCo.__init__` (the `isinstance(..., str)` branch calls
`get_collision_geoms` directly, for every preset string including
`"all"`; a list is stored as-is). -/
def resolveCollisionSpec : CollisionSpec → Except ConfigError (List String)
  | CollisionSpec.preset s => getCollisionGeoms s
  | CollisionSpec.explicit l => Except.ok l

/-- Embedding of `NeuroMechFlyMuJoCo._parse_collision_specs`, which (unlike
the `__init__` parsing above) treats `"all"` specially, filtering the
model's geometry names for those containing `"collision"`.  `__init__`
runs the `resolveCollisionSpec` parsing first, so the `"all"` branch here
is unreachable from the constructor. -/
def parseCollisionSpecs (modelGeomNames : List String) :
    CollisionSpec → Except ConfigError (List String)
  | CollisionSpec.preset s =>
      if s == "all" then Except.ok (modelGeomNames.filter fun nm => pyIn "collision" nm)
      else getCollisionGeoms s
  | CollisionSpec.explicit l => Except.ok l

/-! ## `_define_self_contacts`: self-collision pair enumeration -/

/-- The kinematic-tree information `_define_self_contacts` reads from the
MJCF model: the parent body of each geometry, the names of the direct
child bodies of a body (`body.all_children()` filtered to `tag == "body"`),
and the name of a body's parent (`body.parent.name`). -/
structure KinModel where
  geomParent : String → String
  bodyChildren : String → List String
  bodyParentName : String → String

/-- The adjacency-exclusion test of `_define_self_contacts`: a contact
pair is added only if the parent bodies are not the same body, neither is
a direct child of the other, and neither body's name occurs as a
substring of the other's parent's name (Python's `in` on strings). -/
def pairAllowed (m : KinModel) (geom1 geom2 : String) : Bool :=
  let body1 := m.geomParent geom1
  let body2 := m.geomParent geom2
  !(body1 == body2
    || (m.bodyChildren body2).contains body1
    || (m.bodyChildren body1).contains body2
    || pyIn body1 (m.bodyParentName body2)
    || pyIn body2 (m.bodyParentName body1))

/-- One inner-loop iteration of `_define_self_contacts`: the ordered pair
`(geom1, geom2)` is registered under the name `f"{geom1}_{geom2}"` unless
the geometries are equal, that exact name was already registered
(`is_duplicate`), or the adjacency exclusion rejects the pair. -/
def selfPairStep (m : KinModel) (geom1 : String) (acc : List String)
    (geom2 : String) : List String :=
  if geom1 != geom2 && !acc.contains (geom1 ++ "_" ++ geom2)
      && pairAllowed m geom1 geom2
  then acc ++ [geom1 ++ "_" ++ geom2]
  else acc

/-- Embedding of `NeuroMechFlyMuJoCo._define_self_contacts`: the nested
loop over ordered pairs of the input geometry list, returning the
registered pair names in order. -/
def defineSelfContacts (m : KinModel) (geoms : List String) : List String :=
  geoms.foldl (fun acc geom1 => geoms.foldl (selfPairStep m geom1) acc) []

/-- The property the self-contact claim asserts of every registered pair
name: it comes from two distinct geometries whose parent bodies are
distinct, not in a direct parent/child relationship (neither by the
child-list test nor by the parent-name test). -/
def selfPairOk (m : KinModel) (nm : String) : Prop :=
  ∃ geom1 geom2, nm = geom1 ++ "_" ++ geom2 ∧ geom1 ≠ geom2 ∧
    m.geomParent geom1 ≠ m.geomParent geom2 ∧
    m.geomParent geom1 ∉ m.bodyChildren (m.geomParent geom2) ∧
    m.geomParent geom2 ∉ m.bodyChildren (m.geomParent geom1) ∧
    m.bodyParentName (m.geomParent geom2) ≠ m.geomParent geom1 ∧
    m.bodyParentName (m.geomParent geom1) ≠ m.geomParent geom2

/-- A concrete kinematic model with two geometries `"a"`, `"b"` whose
parent bodies `"pa"`, `"pb"` are unrelated (no parent/child relation, a
common parent `"root"`). -/
def kinM1 : KinModel where
  geomParent := fun g => if g == "a" then "pa" else "pb"
  bodyChildren := fun _ => []
  bodyParentName := fun _ => "root"

/-! ## `_define_floor_contacts`: floor-collision pair enumeration -/

/-- Elementwise mean of two equal-length vectors, embedding
`np.mean([xs, ys], axis=0)`. -/
def npMean2 (xs ys : List ℚ) : List ℚ :=
  List.zipWith (fun a b => (a + b) / 2) xs ys

/-- Embedding of `np.repeat(xs, counts)`: element `i` of `xs` is repeated
`counts[i]` times. -/
def npRepeat (xs : List ℚ) (counts : List ℕ) : List ℚ :=
  (List.zipWith List.replicate counts xs).flatten

/-- The friction vector attached to every floor contact pair:
`np.repeat(np.mean([fly_friction, arena_friction], axis=0), (2, 1, 2))`. -/
def floorFriction (flyFriction arenaFriction : List ℚ) : List ℚ :=
  npRepeat (npMean2 flyFriction arenaFriction) [2, 1, 2]

/-- The friction vector as the spec describes it (spec-side definition,
for refinement): the elementwise arithmetic mean of the fly's and the
terrain's (sliding, torsional, rolling) triples, expanded into the
engine's per-axis layout with multiplicities (2, 1, 2). -/
def specFloorFriction : ℚ × ℚ × ℚ → ℚ × ℚ × ℚ → List ℚ :=
  fun f a =>
    match f, a with
    | (f1, f2, f3), (a1, a2, a3) =>
      [(f1 + a1) / 2, (f1 + a1) / 2, (f2 + a2) / 2, (f3 + a3) / 2, (f3 + a3) / 2]

/-- Python's ground test in `_define_floor_contacts`: a terrain geometry
is ground-like when its name is `None` or contains neither `"visual"` nor
`"collision"`. -/
def isGroundGeom : Option String → Bool
  | none => true
  | some nm => !(pyIn "visual" nm || pyIn "collision" nm)

/-- Accumulated state of the floor-contact enumeration: the registered
(pair name, friction vector) list and the synthetic `groundblock_` name
counter. -/
structure FloorSt where
  pairs : List (String × List ℚ)
  groundId : ℕ
deriving DecidableEq

/-- One inner-loop iteration of `_define_floor_contacts`: an anonymous
terrain geometry is assigned `f"groundblock_{ground_id}"` (once, at its
first pairing; the counter then increments), and a pair named
`f"{geom.name}_{animat_geom_name}"` carrying the mean-friction vector is
registered. -/
def floorPairStep (flyFriction arenaFriction : List ℚ)
    (p : Option String × FloorSt) (animatGeomName : String) :
    Option String × FloorSt :=
  let nm := match p.1 with
    | none => "groundblock_" ++ toString p.2.groundId
    | some n => n
  let gid := match p.1 with
    | none => p.2.groundId + 1
    | some _ => p.2.groundId
  (some nm,
   { pairs := p.2.pairs
       ++ [(nm ++ "_" ++ animatGeomName, floorFriction flyFriction arenaFriction)],
     groundId := gid })

/-- The inner loop of `_define_floor_contacts` for one ground-like
terrain geometry: pair it with each body geometry in the
floor-collidable set. -/
def addFloorPairs (flyFriction arenaFriction : List ℚ) (floorGeoms : List String)
    (geomName : Option String) (st : FloorSt) : FloorSt :=
  (floorGeoms.foldl (floorPairStep flyFriction arenaFriction) (geomName, st)).2

/-- Embedding of `NeuroMechFlyMuJoCo._define_floor_contacts`: every
ground-like terrain geometry is paired with every floor-collidable body
geometry. -/
def defineFloorContacts (flyFriction arenaFriction : List ℚ)
    (arenaGeoms : List (Option String)) (floorGeoms : List String) : FloorSt :=
  arenaGeoms.foldl
    (fun st g =>
      if isGroundGeom g then addFloorPairs flyFriction arenaFriction floorGeoms g st
      else st)
    { pairs := [], groundId := 0 }

/-! ## `_update_vision`: the decoupled vision-sampling cadence -/

/-- The vision bookkeeping of the environment:
`_last_vision_update_time` (`none` models the `-np.inf` sentinel),
`_vision_update_mask`, `curr_visual_input` and `curr_raw_visual_input`
(the readings are abstracted to a single rational, since their pixel
content is produced by the external renderer). -/
structure VisionState where
  lastUpdate : Option ℚ
  mask : List Bool
  current : Option ℚ
  currentRaw : Option ℚ
deriving DecidableEq

/-- The cleared vision bookkeeping installed by `reset` (and at
construction). -/
def visionReset : VisionState :=
  { lastUpdate := none, mask := [], current := none, currentRaw := none }

/-- Whether a vision update is due at time `t`: the code skips the update
when `curr_time < last_vision_update_time + eff_visual_render_interval`;
with the `-np.inf` sentinel the comparison is always false, so the first
request always updates. -/
def visionDue (interval t : ℚ) (s : VisionState) : Bool :=
  match s.lastUpdate with
  | none => true
  | some lu => !(decide (t < lu + interval))

/-- Embedding of `NeuroMechFlyMuJoCo._update_vision`: appends exactly one
marker to the mask; when no update is due the previous reading is kept,
otherwise a fresh stereo sample (`sample t`) is stored, the raw frames
are stored only when `render_raw_vision` is set, and the last-update time
becomes `t`. -/
def updateVision (renderRaw : Bool) (interval t : ℚ) (sample rawSample : ℚ → ℚ)
    (s : VisionState) : VisionState :=
  if visionDue interval t s then
    { lastUpdate := some t,
      mask := s.mask ++ [true],
      current := some (sample t),
      currentRaw := if renderRaw then some (rawSample t) else s.currentRaw }
  else
    { s with mask := s.mask ++ [false] }

/-- The exposed `vision_update_mask` property: the raw mask with its
first entry dropped. -/
def visionUpdateMask (s : VisionState) : List Bool :=
  s.mask.drop 1

/-- A sequence of observation reads at the given times, each running the
vision update (`get_observation` calls `_update_vision` once per read
when vision is enabled). -/
def runReads (renderRaw : Bool) (interval : ℚ) (sample rawSample : ℚ → ℚ)
    (ts : List ℚ) (s : VisionState) : VisionState :=
  ts.foldl (fun s t => updateVision renderRaw interval t sample rawSample s) s

/-! ## The environment loop: state, observation, step/reset/render -/

/-- The abstract engine-side quantities the environment reads: named
joint positions (`named.data.qpos`), the remaining scalar sensor channels
(joint velocities, actuator-force channels, touch sensors — one scalar
per channel, indexed by sensor name), the body-pose sensor bundle, the
end-effector position sensors, the eye-camera readouts (abstracted), and
the scene camera frame (abstracted to an identifier). -/
structure PhysState where
  qpos : String → ℚ
  chan : String → ℚ
  thoraxPos : ℚ × ℚ × ℚ
  thoraxLinvel : ℚ × ℚ × ℚ
  thoraxEuler : ℚ × ℚ × ℚ
  thoraxAngvel : ℚ × ℚ × ℚ
  eePos : String → ℚ × ℚ × ℚ
  eyeReading : ℚ
  rawEyeReading : ℚ
  frame : ℕ

/-- The instantiated physics object: its current state, the last applied
control vector, and the number of engine steps taken since the last
engine reset (`physics.step()` advances this by exactly one). -/
structure Physics where
  state : PhysState
  ctrl : List ℚ
  age : ℕ

/-- Embedding of `physics.bind(actuators).ctrl = action; physics.step()`:
the control targets are applied and the engine advances by exactly one
step under its (externally supplied) one-step transition `dyn`. -/
def stepPhysics (dyn : List ℚ → PhysState → PhysState) (action : List ℚ)
    (p : Physics) : Physics :=
  { state := dyn action p.state, ctrl := action, age := p.age + 1 }

/-- The construction-time configuration the loop reads (a slice of
`MuJoCoParameters` plus constructor arguments); immutable after
construction. `initPose` maps a joint name to its configured initial
position, `none` when the pose mapping has no entry for it. -/
structure EnvCfg where
  timestep : ℚ
  renderMode : String
  effRenderInterval : ℚ
  actuatedJoints : List String
  contactSensorPlacements : List String
  initPose : String → Option ℚ
  enableVision : Bool
  renderRawVision : Bool
  effVisualRenderInterval : ℚ

/-- The environment: configuration plus the mutable run state
(`physics`, `curr_time`, `_last_render_time` with `none` for `-np.inf`,
`_frames`, and the vision bookkeeping). -/
structure Env where
  cfg : EnvCfg
  physics : Physics
  currTime : ℚ
  lastRenderTime : Option ℚ
  frames : List ℕ
  vision : VisionState

/-- Embedding of `_set_init_pose`: iterate over the actuators (one per
entry of `actuated_joints`; `actuators[i].joint.name` is the joint the
actuator was looked up for), and write `qpos` only for joints that are
both in `actuated_joints` and present in the pose mapping.  Iteration
list and membership list are separated so the loop can be reasoned about
by induction.  (The Python key is `f"Animat/{curr_joint}"`; the constant
scope prefix is dropped here.) -/
def setInitPoseAux (joints : List String) (pose : String → Option ℚ) :
    List String → (String → ℚ) → (String → ℚ)
  | [], q => q
  | j :: rest, q =>
      setInitPoseAux joints pose rest
        (if joints.contains j && (pose j).isSome
         then fun nm => if nm == j then (pose j).getD 0 else q nm
         else q)

/-- `_set_init_pose` proper: the iteration runs over the actuated-joint
list itself.  Entries of the pose mapping naming non-actuated or absent
joints are never consulted; the function is total, so no error is
raised. -/
def setInitPose (joints : List String) (pose : String → Option ℚ)
    (q : String → ℚ) : String → ℚ :=
  setInitPoseAux joints pose joints q

/-- The six end-effector names `f"{side}{pos}Tarsus5"` fixed in
`__init__`. -/
def endEffectorNames : List String :=
  ["L", "R"].flatMap fun side => ["F", "M", "H"].map fun pos => side ++ pos ++ "Tarsus5"

/-- One conversion used by the observation assembly. -/
def tripleToList : ℚ × ℚ × ℚ → List ℚ :=
  fun t => match t with | (a, b, c) => [a, b, c]

/-- The flat joint sensor buffer: five scalar channels per actuated joint
(`jointpos`, `jointvel`, and the three `actuatorfrc` channels), exactly
as declared by `_add_joint_sensors` (each of these MuJoCo sensor types
reads out one scalar). -/
def jointSensordata (st : PhysState) (joints : List String) : List ℚ :=
  joints.flatMap fun j =>
    [st.qpos j,
     st.chan ("jointvel_" ++ j),
     st.chan ("actuatorfrc_position_" ++ j),
     st.chan ("actuatorfrc_velocity_" ++ j),
     st.chan ("actuatorfrc_motor_" ++ j)]

/-- The `"joints"` observation field: a (3, num_dofs) matrix whose rows
are position, velocity, and the torque obtained by summing the three
actuator-force channels and scaling by `1e-9`. -/
def jointObs (st : PhysState) (joints : List String) : List (List ℚ) :=
  let sd := jointSensordata st joints
  [(List.range joints.length).map fun i => sd.getD (i * 5) 0,
   (List.range joints.length).map fun i => sd.getD (i * 5 + 1) 0,
   (List.range joints.length).map fun i =>
     (sd.getD (i * 5 + 2) 0 + sd.getD (i * 5 + 3) 0 + sd.getD (i * 5 + 4) 0)
       * (1 / 1000000000)]

/-- The `"fly"` observation field: cartesian position, cartesian
velocity, orientation as Euler angles with the roll negated
(`ang_pos[0] *= -1`), and angular velocity — a (4, 3) matrix. -/
def flyObs (st : PhysState) : List (List ℚ) :=
  [tripleToList st.thoraxPos,
   tripleToList st.thoraxLinvel,
   (match st.thoraxEuler with | (r, p, y) => [-r, p, y]),
   tripleToList st.thoraxAngvel]

/-- The observation dictionary assembled by `get_observation`.  The
`vision` / `raw_vision` keys are present only when the corresponding
toggles are set (`none` models an absent key). -/
structure Observation where
  joints : List (List ℚ)
  fly : List (List ℚ)
  contactForces : List ℚ
  endEffectors : List ℚ
  vision : Option ℚ
  rawVision : Option ℚ
deriving DecidableEq

/-- The per-field shapes declared by `_define_spaces` at construction
(`joints (3, num_dofs)`, `fly (4, 3)`, `contact_forces (6, num_contacts)`,
`end_effectors (3 * 6,)`). -/
structure ObsSpaceShapes where
  joints : List ℕ
  fly : List ℕ
  contactForces : List ℕ
  endEffectors : List ℕ
deriving DecidableEq

/-- Embedding of the observation-space shapes of `_define_spaces`. -/
def defineSpaces (numDofs numContacts : ℕ) : ObsSpaceShapes :=
  { joints := [3, numDofs],
    fly := [4, 3],
    contactForces := [6, numContacts],
    endEffectors := [3 * 6] }

/-- Embedding of `get_observation`: assembles the observation from the
sensor buffers and, when vision is enabled, first runs `_update_vision`
(which mutates the vision bookkeeping), then exposes the current
reading.  The touch sensors declared by `_add_touch_sensors` (one MuJoCo
`touch` sensor per contact placement) each read out a single scalar, so
the `contact_forces` entry is a flat vector with one entry per
placement. -/
def getObservation (e : Env) : Observation × Env :=
  let st := e.physics.state
  let newVision :=
    if e.cfg.enableVision then
      updateVision e.cfg.renderRawVision e.cfg.effVisualRenderInterval e.currTime
        (fun _ => st.eyeReading) (fun _ => st.rawEyeReading) e.vision
    else e.vision
  ({ joints := jointObs st e.cfg.actuatedJoints,
     fly := flyObs st,
     contactForces :=
       e.cfg.contactSensorPlacements.map fun g => st.chan ("touch_" ++ g ++ "_collision"),
     endEffectors := endEffectorNames.flatMap fun n => tripleToList (st.eePos n),
     vision := if e.cfg.enableVision then newVision.current else none,
     rawVision :=
       if e.cfg.enableVision && e.cfg.renderRawVision then newVision.currentRaw
       else none },
   { e with vision := newVision })

/-- `get_reward`: always 0 unless extended by the user. -/
def getReward : ℚ := 0

/-- `is_terminated`: always `False` unless extended by the user. -/
def isTerminated : Bool := false

/-- `is_truncated`: always `False` unless extended by the user. -/
def isTruncated : Bool := false

/-- `get_info`: always the empty dictionary unless extended by the user. -/
def getInfo : List (String × ℚ) := []

/-- The 5-tuple returned by `step`, together with the successor
environment state. -/
structure StepResult where
  obs : Observation
  reward : ℚ
  terminated : Bool
  truncated : Bool
  info : List (String × ℚ)
  env : Env

/-- Embedding of `step`: apply the control targets, advance the engine by
one step, advance `curr_time` by one timestep, then assemble the return
tuple from `get_observation` / `get_reward` / `is_terminated` /
`is_truncated` / `get_info`. -/
def stepEnv (dyn : List ℚ → PhysState → PhysState) (action : List ℚ)
    (e : Env) : StepResult :=
  let e1 : Env := { e with
    physics := stepPhysics dyn action e.physics,
    currTime := e.currTime + e.cfg.timestep }
  let r := getObservation e1
  { obs := r.1, reward := getReward, terminated := isTerminated,
    truncated := isTruncated, info := getInfo, env := r.2 }

/-- Embedding of `reset`: the engine is restored to its deterministic
initial state `p0` (`physics.reset()`), elapsed time is cleared, the
initial pose is re-applied, the frame buffer, render/vision timestamps
and vision bookkeeping are cleared, and the post-reset observation plus
the (empty) info record are returned. -/
def resetEnv (p0 : PhysState) (e : Env) : (Observation × List (String × ℚ)) × Env :=
  let st1 : PhysState :=
    { p0 with qpos := setInitPose e.cfg.actuatedJoints e.cfg.initPose p0.qpos }
  let e1 : Env :=
    { cfg := e.cfg,
      physics := { state := st1, ctrl := [], age := 0 },
      currTime := 0,
      lastRenderTime := none,
      frames := [],
      vision := visionReset }
  let r := getObservation e1
  ((r.1, getInfo), r.2)

/-- The early-return test of `render`:
`curr_time < _last_render_time + _eff_render_interval`, with `none`
modelling the `-np.inf` sentinel (for which the comparison is always
false). -/
def renderWait (e : Env) : Bool :=
  match e.lastRenderTime with
  | none => false
  | some lr => decide (e.currTime < lr + e.cfg.effRenderInterval)

/-- Embedding of `render`: a no-op in `"headless"` mode; a no-op when the
next frame is not yet due; in `"saved"` mode captures one frame and
stamps the capture time; for any other mode raises `NotImplementedError`
(the `Except.error`), leaving the state unchanged. -/
def renderEnv (e : Env) : Except Unit Env :=
  if e.cfg.renderMode == "headless" then Except.ok e
  else if renderWait e then Except.ok e
  else if e.cfg.renderMode == "saved" then
    Except.ok { e with
      frames := e.frames ++ [e.physics.state.frame],
      lastRenderTime := some e.currTime }
  else Except.error ()

/-- Effects performed by `save_video`: whether the warning was logged,
whether the output file was opened for writing (the code opens the
`imageio` writer unconditionally, creating the file), and the frames
written to it. -/
structure SaveVideoResult where
  warned : Bool
  fileOpened : Bool
  framesWritten : List ℕ
deriving DecidableEq

/-- Embedding of `save_video`: when the render mode is not `"saved"` a
warning is logged saying no video will be saved — but the function does
not return there; it unconditionally creates the output directory, opens
the video writer (creating the file), and writes every buffered frame. -/
def saveVideo (e : Env) : SaveVideoResult :=
  { warned := e.cfg.renderMode != "saved",
    fileOpened := true,
    framesWritten := e.frames }

/-- The operations a caller can perform on a constructed environment.
A `render` that raises leaves the state unchanged (the exception
propagates before any mutation). -/
inductive EnvOp where
  | act (action : List ℚ)
  | reset
  | render

/-- One caller-level operation. -/
def runOp (dyn : List ℚ → PhysState → PhysState) (p0 : PhysState) (e : Env) :
    EnvOp → Env
  | EnvOp.act a => (stepEnv dyn a e).env
  | EnvOp.reset => (resetEnv p0 e).2
  | EnvOp.render =>
      match renderEnv e with
      | Except.ok e' => e'
      | Except.error _ => e

/-- A sequence of caller-level operations. -/
def runOps (dyn : List ℚ → PhysState → PhysState) (p0 : PhysState) :
    Env → List EnvOp → Env
  | e, [] => e
  | e, op :: rest => runOps dyn p0 (runOp dyn p0 e op) rest

/-- The environment as the constructor leaves it: fresh mutable state
followed by the implicit first `reset`. -/
def mkEnv (p0 : PhysState) (cfg : EnvCfg) : Env :=
  (resetEnv p0
    { cfg := cfg,
      physics := { state := p0, ctrl := [], age := 0 },
      currTime := 0,
      lastRenderTime := none,
      frames := [],
      vision := visionReset }).2

/-! ## Concrete instances used to evaluate the definitions -/

/-- A trivial engine transition (state unchanged by a step). -/
def dyn0 : List ℚ → PhysState → PhysState := fun _ st => st

/-- A concrete engine state with all readings zero. -/
def physState0 : PhysState :=
  { qpos := fun _ => 0,
    chan := fun _ => 0,
    thoraxPos := (0, 0, 0),
    thoraxLinvel := (0, 0, 0),
    thoraxEuler := (0, 0, 0),
    thoraxAngvel := (0, 0, 0),
    eePos := fun _ => (0, 0, 0),
    eyeReading := 0,
    rawEyeReading := 0,
    frame := 0 }

/-- A configuration with one actuated joint and one contact placement,
vision disabled, render mode `"saved"`. -/
def cfgSaved : EnvCfg :=
  { timestep := 1 / 10000,
    renderMode := "saved",
    effRenderInterval := 1 / 60,
    actuatedJoints := ["joint_LFCoxa"],
    contactSensorPlacements := ["LFTarsus1"],
    initPose := fun _ => none,
    enableVision := false,
    renderRawVision := false,
    effVisualRenderInterval := 1 / 500 }

/-- The same configuration with the unsupported render mode `"human"`. -/
def cfgHuman : EnvCfg :=
  { cfgSaved with renderMode := "human" }

/-- The same configuration in `"headless"` mode. -/
def cfgHeadless : EnvCfg :=
  { cfgSaved with renderMode := "headless" }

/-- A concrete environment in `"saved"` render mode. -/
def envSaved : Env :=
  { cfg := cfgSaved,
    physics := { state := physState0, ctrl := [], age := 0 },
    currTime := 0,
    lastRenderTime := none,
    frames := [],
    vision := visionReset }

/-- A concrete `"headless"`-mode environment holding one buffered
frame. -/
def envHeadless : Env :=
  { envSaved with cfg := cfgHeadless, frames := [7] }

/-- A concrete `"human"`-mode environment in which the last captured
frame is recent (no frame due at the current time). -/
def envHumanWaiting : Env :=
  { envSaved with cfg := cfgHuman, lastRenderTime := some 0 }

/-- A vision-enabled variant of the concrete environment. -/
def envVision : Env :=
  { envSaved with cfg := { cfgSaved with enableVision := true } }

/-! ## Theorems -/

theorem charsPfx_self (l : List Char) : charsPfx l l = true := by
  induction l with
  | nil => rfl
  | cons c cs ih => simp [charsPfx, ih]

theorem charsSub_self (l : List Char) : charsSub l l = true := by
  cases l with
  | nil => rfl
  | cons c cs => simp [charsSub, charsPfx_self]

theorem pyIn_self (s : String) : pyIn s s = true :=
  charsSub_self s.data

theorem containsFalseNotMem {l : List String} {a : String}
    (h : l.contains a = false) : a ∉ l := by
  intro hm
  have h2 : l.contains a = true := List.elem_iff.mpr hm
  rw [h2] at h
  cases h

theorem containsTrueOfMem {l : List String} {a : String} (h : a ∈ l) :
    l.contains a = true := List.elem_iff.mpr h

/-- C2: construction-time resolution of the collision specs.  The preset
`"all"` — although documented and handled by the (later, shadowed)
`_parse_collision_specs` — makes `__init__` raise, because the
`isinstance(str)` branch calls `get_collision_geoms`, whose if/elif chain
has no `"all"` case; `"legs"`, `"legs-no-coxa"`, `"tarsi"`, `"none"`
resolve without error, an explicit list is accepted as-is, and every
other preset string raises. -/
theorem collision_preset_resolution :
    resolveCollisionSpec (CollisionSpec.preset "all")
        = Except.error (ConfigError.unknownCollisionConfig "all")
    ∧ resolveCollisionSpec (CollisionSpec.preset "legs")
        = Except.ok (collisionGeomNames legsDofNames)
    ∧ resolveCollisionSpec (CollisionSpec.preset "legs-no-coxa")
        = Except.ok (collisionGeomNames legsNoCoxaDofNames)
    ∧ resolveCollisionSpec (CollisionSpec.preset "tarsi")
        = Except.ok (collisionGeomNames tarsiDofNames)
    ∧ resolveCollisionSpec (CollisionSpec.preset "none") = Except.ok []
    ∧ (∀ l, resolveCollisionSpec (CollisionSpec.explicit l) = Except.ok l)
    ∧ ∀ s, s ≠ "legs" → s ≠ "legs-no-coxa" → s ≠ "tarsi" → s ≠ "none" →
        resolveCollisionSpec (CollisionSpec.preset s)
          = Except.error (ConfigError.unknownCollisionConfig s) := by
  refine ⟨rfl, rfl, rfl, rfl, rfl, fun l => rfl, fun s h1 h2 h3 h4 => ?_⟩
  simp only [resolveCollisionSpec, getCollisionGeoms, beq_iff_eq]
  rw [if_neg h1, if_neg h2, if_neg h3, if_neg h4]

/-- C2 witness: an explicit list is accepted as-is, and a string outside
the preset vocabulary raises. -/
theorem collision_preset_resolution_witness :
    resolveCollisionSpec (CollisionSpec.explicit ["LFTibia_collision"])
        = Except.ok ["LFTibia_collision"]
    ∧ resolveCollisionSpec (CollisionSpec.preset "leg")
        = Except.error (ConfigError.unknownCollisionConfig "leg") :=
  ⟨collision_preset_resolution.2.2.2.2.2.1 ["LFTibia_collision"],
   collision_preset_resolution.2.2.2.2.2.2 "leg"
     (by decide) (by decide) (by decide) (by decide)⟩

theorem floorFold_friction (flyF arenaF : List ℚ) :
    ∀ (gs : List String) (p : Option String × FloorSt),
      (∀ pr ∈ p.2.pairs, pr.2 = floorFriction flyF arenaF) →
      ∀ pr ∈ (gs.foldl (floorPairStep flyF arenaF) p).2.pairs,
        pr.2 = floorFriction flyF arenaF := by
  intro gs
  induction gs with
  | nil => intro p hp; simpa using hp
  | cons g rest ih =>
      intro p hp
      simp only [List.foldl_cons]
      apply ih
      intro pr hpr
      obtain ⟨gname, st⟩ := p
      cases gname with
      | none =>
          simp only [floorPairStep, List.mem_append, List.mem_singleton] at hpr
          rcases hpr with h | h
          · exact hp pr h
          · rw [h]
      | some n =>
          simp only [floorPairStep, List.mem_append, List.mem_singleton] at hpr
          rcases hpr with h | h
          · exact hp pr h
          · rw [h]

theorem defineFloorContacts_friction (flyF arenaF : List ℚ)
    (arenaGeoms : List (Option String)) (floorGeoms : List String) :
    ∀ pr ∈ (defineFloorContacts flyF arenaF arenaGeoms floorGeoms).pairs,
      pr.2 = floorFriction flyF arenaF := by
  have main : ∀ (ags : List (Option String)) (st : FloorSt),
      (∀ pr ∈ st.pairs, pr.2 = floorFriction flyF arenaF) →
      ∀ pr ∈ (ags.foldl
          (fun st g =>
            if isGroundGeom g then addFloorPairs flyF arenaF floorGeoms g st else st)
          st).pairs,
        pr.2 = floorFriction flyF arenaF := by
    intro ags
    induction ags with
    | nil => intro st hst; simpa using hst
    | cons g rest ih =>
        intro st hst
        simp only [List.foldl_cons]
        by_cases hg : isGroundGeom g
        · rw [if_pos hg]
          exact ih _ (floorFold_friction flyF arenaF floorGeoms (g, st) hst)
        · rw [if_neg hg]
          exact ih st hst
  exact main arenaGeoms { pairs := [], groundId := 0 } (by intro pr h; cases h)

/-- C3: the friction vector of every registered floor-contact pair is the
elementwise arithmetic mean of the fly's friction triple and the arena's
friction triple, expanded into the engine's per-axis layout with
multiplicities (2, 1, 2) — `specFloorFriction`, the formula as the spec
states it. -/
theorem floor_contact_friction (f1 f2 f3 a1 a2 a3 : ℚ)
    (arenaGeoms : List (Option String)) (floorGeoms : List String) :
    ∀ pr ∈ (defineFloorContacts [f1, f2, f3] [a1, a2, a3] arenaGeoms floorGeoms).pairs,
      pr.2 = specFloorFriction (f1, f2, f3) (a1, a2, a3) := by
  intro pr hpr
  rw [defineFloorContacts_friction [f1, f2, f3] [a1, a2, a3] arenaGeoms floorGeoms pr hpr]
  rfl

/-- C3 witness: a named ground geometry paired with one floor-collidable
body geometry carries the mean friction expanded as (2, 1, 2). -/
theorem floor_contact_friction_witness :
    (("ground_LFTibia_collision", floorFriction [1, 2, 3] [5, 6, 7]) ∈
      (defineFloorContacts [1, 2, 3] [5, 6, 7] [some "ground"]
        ["LFTibia_collision"]).pairs)
    ∧ ("ground_LFTibia_collision", floorFriction [1, 2, 3] [5, 6, 7]).2
        = specFloorFriction (1, 2, 3) (5, 6, 7) :=
  ⟨List.mem_singleton.mpr rfl,
   floor_contact_friction 1 2 3 5 6 7 [some "ground"] ["LFTibia_collision"]
     ("ground_LFTibia_collision", floorFriction [1, 2, 3] [5, 6, 7])
     (List.mem_singleton.mpr rfl)⟩

theorem selfPairStep_inv (m : KinModel) (geom1 geom2 : String)
    (acc : List String)
    (h : acc.Nodup ∧ ∀ nm ∈ acc, selfPairOk m nm) :
    (selfPairStep m geom1 acc geom2).Nodup
      ∧ ∀ nm ∈ selfPairStep m geom1 acc geom2, selfPairOk m nm := by
  unfold selfPairStep
  by_cases hc : (geom1 != geom2 && !acc.contains (geom1 ++ "_" ++ geom2)
      && pairAllowed m geom1 geom2) = true
  · rw [if_pos hc]
    simp only [Bool.and_eq_true] at hc
    obtain ⟨⟨h1, h2⟩, h3⟩ := hc
    have hnotmem : (geom1 ++ "_" ++ geom2) ∉ acc := by
      apply containsFalseNotMem
      rcases hcontains : acc.contains (geom1 ++ "_" ++ geom2) with _ | _
      · rfl
      · rw [hcontains] at h2; cases h2
    constructor
    · rw [List.nodup_append]
      refine ⟨h.1, List.nodup_singleton _, ?_⟩
      intro x hx hx2
      rw [List.mem_singleton] at hx2
      rw [hx2] at hx
      exact hnotmem hx
    · intro nm hnm
      rcases List.mem_append.mp hnm with hmem | hmem
      · exact h.2 nm hmem
      · have heq : nm = geom1 ++ "_" ++ geom2 := List.mem_singleton.mp hmem
        rw [heq]
        unfold pairAllowed at h3
        simp only [Bool.not_eq_eq_eq_not, Bool.not_true, Bool.or_eq_false_iff] at h3
        obtain ⟨⟨⟨⟨e1, e2⟩, e3⟩, e4⟩, e5⟩ := h3
        refine ⟨geom1, geom2, rfl, bne_iff_ne.mp h1, ?_, ?_, ?_, ?_, ?_⟩
        · intro he
          rw [he] at e1
          rw [beq_self_eq_true] at e1
          cases e1
        · exact containsFalseNotMem e2
        · exact containsFalseNotMem e3
        · intro he
          rw [he] at e4
          rw [pyIn_self] at e4
          cases e4
        · intro he
          rw [he] at e5
          rw [pyIn_self] at e5
          cases e5
  · rw [if_neg hc]
    exact h

theorem selfFoldInner_inv (m : KinModel) (geom1 : String) :
    ∀ (gs : List String) (acc : List String),
      (acc.Nodup ∧ ∀ nm ∈ acc, selfPairOk m nm) →
      (gs.foldl (selfPairStep m geom1) acc).Nodup
        ∧ ∀ nm ∈ gs.foldl (selfPairStep m geom1) acc, selfPairOk m nm := by
  intro gs
  induction gs with
  | nil => intro acc h; simpa using h
  | cons g rest ih =>
      intro acc h
      simp only [List.foldl_cons]
      exact ih _ (selfPairStep_inv m geom1 g acc h)

/-- C1 (amended): every pair registered by the self-contact enumeration
joins two distinct geometries whose parent bodies are distinct and not in
a direct parent/child relationship, and no ordered-pair name is
registered twice (presenting the same ordered pair again is a deduplicated
no-op).  The symmetric reversal `(b, a)` of a registered pair `(a, b)` is
*not* deduplicated — see the counterexample theorem. -/
theorem self_contacts_exclusion (m : KinModel) (geoms : List String) :
    (defineSelfContacts m geoms).Nodup
      ∧ ∀ nm ∈ defineSelfContacts m geoms, selfPairOk m nm := by
  have main : ∀ (gs : List String) (acc : List String),
      (acc.Nodup ∧ ∀ nm ∈ acc, selfPairOk m nm) →
      (gs.foldl (fun acc geom1 => geoms.foldl (selfPairStep m geom1) acc) acc).Nodup
        ∧ ∀ nm ∈ gs.foldl (fun acc geom1 => geoms.foldl (selfPairStep m geom1) acc) acc,
            selfPairOk m nm := by
    intro gs
    induction gs with
    | nil => intro acc h; simpa using h
    | cons g rest ih =>
        intro acc h
        simp only [List.foldl_cons]
        exact ih _ (selfFoldInner_inv m g geoms acc h)
  exact main geoms [] ⟨List.nodup_nil, by intro nm h; cases h⟩

/-- C1 counterexample: with two geometries `"a"`, `"b"` on unrelated
parent bodies, presenting the unordered pair in both orders registers two
contact pairs (`"a_b"` and `"b_a"`), not one: the `is_duplicate` check
compares only the ordered name `f"{geom1}_{geom2}"`, so the symmetric
reversal is not deduplicated. -/
theorem self_contacts_symmetric_duplicate :
    defineSelfContacts kinM1 ["a", "b"] = ["a_b", "b_a"]
      ∧ (defineSelfContacts kinM1 ["a", "b"]).length ≠ 1 := by
  constructor
  · decide
  · decide

/-- C1 witness: on a three-entry input presenting `"a"` twice, the
enumeration stays duplicate-free and the registered pair `"a_b"`
satisfies the exclusion property. -/
theorem self_contacts_exclusion_witness :
    (defineSelfContacts kinM1 ["a", "b", "a"]).Nodup ∧ selfPairOk kinM1 "a_b" :=
  ⟨(self_contacts_exclusion kinM1 ["a", "b", "a"]).1,
   (self_contacts_exclusion kinM1 ["a", "b", "a"]).2 "a_b" (by decide)⟩

theorem setInitPoseAux_spec (joints : List String) (pose : String → Option ℚ) :
    ∀ (iter : List String), (∀ x ∈ iter, x ∈ joints) →
      ∀ (q : String → ℚ) (j : String),
        setInitPoseAux joints pose iter q j
          = if iter.contains j && (pose j).isSome then (pose j).getD 0 else q j := by
  intro iter
  induction iter with
  | nil =>
      intro _ q j
      simp [setInitPoseAux, List.contains]
  | cons x rest ih =>
      intro hsub q j
      have hcx : joints.contains x = true :=
        containsTrueOfMem (hsub x (List.mem_cons_self x rest))
      have hrest : ∀ y ∈ rest, y ∈ joints := fun y hy => hsub y (List.mem_cons_of_mem x hy)
      simp only [setInitPoseAux]
      rw [ih hrest]
      rw [hcx, Bool.true_and]
      rw [List.contains_cons]
      by_cases hjx : j = x
      · subst hjx
        cases hj : (pose j).isSome <;> cases hr : rest.contains j <;> simp [hj, hr]
      · have hbx : (j == x) = false := beq_eq_false_iff_ne.mpr hjx
        cases hj : (pose j).isSome <;> cases hr : rest.contains j <;>
          cases hA : (pose x).isSome <;> simp [hj, hr, hA, hbx]

/-- C7: applying the initial pose writes the joint position only for
entries that name a joint both actuated and present in the pose mapping;
any other joint keeps its previous position, and the application is a
total function (an entry naming a non-actuated or absent joint raises no
error and has no effect). -/
theorem set_init_pose_selective (joints : List String) (pose : String → Option ℚ)
    (q : String → ℚ) (j : String) :
    setInitPose joints pose q j
      = if joints.contains j && (pose j).isSome then (pose j).getD 0 else q j :=
  setInitPoseAux_spec joints pose joints (fun _ h => h) q j

theorem updateVision_mask (renderRaw : Bool) (interval t : ℚ)
    (sample rawSample : ℚ → ℚ) (s : VisionState) :
    (updateVision renderRaw interval t sample rawSample s).mask
      = s.mask ++ [visionDue interval t s] := by
  unfold updateVision
  cases h : visionDue interval t s <;> simp [h]

theorem runReads_mask_len (renderRaw : Bool) (interval : ℚ)
    (sample rawSample : ℚ → ℚ) :
    ∀ (ts : List ℚ) (s : VisionState),
      (runReads renderRaw interval sample rawSample ts s).mask.length
        = s.mask.length + ts.length := by
  intro ts
  induction ts with
  | nil => intro s; simp [runReads]
  | cons t rest ih =>
      intro s
      simp only [runReads] at ih ⊢
      rw [List.foldl_cons, ih, updateVision_mask]
      simp only [List.length_append, List.length_cons, List.length_nil]
      omega

/-- C4: with vision enabled, each observation read appends exactly one
marker to the vision-update mask — `false` (previous reading and
last-update time unchanged) when less than `1 / vision_refresh_rate`
seconds have elapsed since the last vision sample, `true` (fresh sample
stored, last-update time stamped) otherwise; and after a reset (whose own
observation read contributes the first marker) followed by any sequence
of reads, the exposed `vision_update_mask` drops that first marker, so
its length is the number of reads since reset minus one.  The final
conjunct ties `_update_vision` to `get_observation`. -/
theorem vision_cadence (renderRaw : Bool) (R t : ℚ) (sample rawSample : ℚ → ℚ)
    (s : VisionState) :
    (updateVision renderRaw (1 / R) t sample rawSample s).mask
        = s.mask ++ [visionDue (1 / R) t s]
    ∧ (visionDue (1 / R) t s = false →
        (updateVision renderRaw (1 / R) t sample rawSample s).current = s.current
        ∧ (updateVision renderRaw (1 / R) t sample rawSample s).lastUpdate
            = s.lastUpdate)
    ∧ (visionDue (1 / R) t s = true →
        (updateVision renderRaw (1 / R) t sample rawSample s).current
            = some (sample t)
        ∧ (updateVision renderRaw (1 / R) t sample rawSample s).lastUpdate = some t)
    ∧ (∀ (ts : List ℚ) (t0 : ℚ),
        (visionUpdateMask
          (runReads renderRaw (1 / R) sample rawSample ts
            (updateVision renderRaw (1 / R) t0 sample rawSample visionReset))).length
          = ts.length)
    ∧ (∀ e : Env, e.cfg.enableVision = true →
        (getObservation e).2.vision
          = updateVision e.cfg.renderRawVision e.cfg.effVisualRenderInterval
              e.currTime (fun _ => e.physics.state.eyeReading)
              (fun _ => e.physics.state.rawEyeReading) e.vision) := by
  refine ⟨updateVision_mask renderRaw (1 / R) t sample rawSample s, ?_, ?_, ?_, ?_⟩
  · intro h
    constructor <;> (unfold updateVision; rw [h]; simp)
  · intro h
    constructor <;> (unfold updateVision; rw [h]; simp)
  · intro ts t0
    simp only [visionUpdateMask, List.length_drop]
    rw [runReads_mask_len, updateVision_mask]
    simp only [visionReset, List.length_append, List.length_cons, List.length_nil]
    omega
  · intro e h
    simp [getObservation, h]

/-- C4 witness: at refresh rate 500, a read 1/1000 s after the last
sample reuses the previous reading; a read 3/500 s after it stores a
fresh one; a reset-read followed by two reads exposes a mask of length
two; and `get_observation` on a vision-enabled environment runs the
vision update. -/
theorem vision_cadence_witness :
    ((updateVision false ((1 : ℚ) / 500) ((1 : ℚ) / 1000) id id
        { lastUpdate := some 0, mask := [true], current := some 3,
          currentRaw := none }).current = some 3
      ∧ (updateVision false ((1 : ℚ) / 500) ((1 : ℚ) / 1000) id id
          { lastUpdate := some 0, mask := [true], current := some 3,
            currentRaw := none }).lastUpdate = some 0)
    ∧ ((updateVision false ((1 : ℚ) / 500) ((3 : ℚ) / 500) id id
        { lastUpdate := some 0, mask := [true], current := some 3,
          currentRaw := none }).current = some ((3 : ℚ) / 500)
      ∧ (updateVision false ((1 : ℚ) / 500) ((3 : ℚ) / 500) id id
          { lastUpdate := some 0, mask := [true], current := some 3,
            currentRaw := none }).lastUpdate = some ((3 : ℚ) / 500))
    ∧ (visionUpdateMask (runReads false ((1 : ℚ) / 500) id id [1, 2]
        (updateVision false ((1 : ℚ) / 500) 0 id id visionReset))).length = 2
    ∧ (getObservation envVision).2.vision
        = updateVision envVision.cfg.renderRawVision
            envVision.cfg.effVisualRenderInterval envVision.currTime
            (fun _ => envVision.physics.state.eyeReading)
            (fun _ => envVision.physics.state.rawEyeReading) envVision.vision :=
  ⟨(vision_cadence false 500 ((1 : ℚ) / 1000) id id
      { lastUpdate := some 0, mask := [true], current := some 3,
        currentRaw := none }).2.1
    (by simp only [visionDue]; norm_num),
   (vision_cadence false 500 ((3 : ℚ) / 500) id id
      { lastUpdate := some 0, mask := [true], current := some 3,
        currentRaw := none }).2.2.1
    (by simp only [visionDue]; norm_num),
   (vision_cadence false 500 0 id id visionReset).2.2.2.1 [1, 2] 0,
   (vision_cadence false 500 0 id id visionReset).2.2.2.2 envVision rfl⟩

/-- C6: `reset` is idempotent in effect — a second consecutive reset
returns the same observation/info pair and leaves the environment in the
same state; the post-reset state has elapsed time zero, an empty frame
buffer, an empty exposed vision-update mask, and the initial pose applied
over the engine's restored joint positions. -/
theorem reset_idempotent (p0 : PhysState) (e : Env) :
    resetEnv p0 ((resetEnv p0 e).2) = resetEnv p0 e
    ∧ (resetEnv p0 e).2.currTime = 0
    ∧ (resetEnv p0 e).2.frames = []
    ∧ visionUpdateMask (resetEnv p0 e).2.vision = []
    ∧ (resetEnv p0 e).2.physics.state.qpos
        = setInitPose e.cfg.actuatedJoints e.cfg.initPose p0.qpos := by
  refine ⟨rfl, rfl, rfl, ?_, rfl⟩
  by_cases h : e.cfg.enableVision = true <;>
    simp [resetEnv, getObservation, visionUpdateMask, updateVision, visionDue,
      visionReset, h]

/-- C5: on the concrete environment (one actuated joint, one contact
placement), `step` advances `curr_time` by exactly one timestep, advances
the engine by exactly one physics step, and returns reward 0, terminated
`false`, truncated `false`, an empty info dictionary, and an observation
whose `joints` (3 × 1), `fly` (4 × 3) and `end_effectors` (18) fields
match the shapes declared at construction — but whose `contact_forces`
field is a flat vector with one scalar per touch sensor, not the
`(6, num_contacts)` shape declared by `_define_spaces`: the code
contradicts its own declared observation space. -/
theorem step_defaults_and_shapes :
    (stepEnv dyn0 [1] envSaved).reward = 0
    ∧ (stepEnv dyn0 [1] envSaved).terminated = false
    ∧ (stepEnv dyn0 [1] envSaved).truncated = false
    ∧ (stepEnv dyn0 [1] envSaved).info = []
    ∧ (stepEnv dyn0 [1] envSaved).env.currTime
        = envSaved.currTime + cfgSaved.timestep
    ∧ (stepEnv dyn0 [1] envSaved).env.physics.age = envSaved.physics.age + 1
    ∧ (stepEnv dyn0 [1] envSaved).obs.joints.map List.length = [1, 1, 1]
    ∧ (stepEnv dyn0 [1] envSaved).obs.fly.map List.length = [3, 3, 3, 3]
    ∧ (stepEnv dyn0 [1] envSaved).obs.endEffectors.length = 18
    ∧ defineSpaces 1 1
        = { joints := [3, 1], fly := [4, 3], contactForces := [6, 1],
            endEffectors := [18] }
    ∧ (stepEnv dyn0 [1] envSaved).obs.contactForces.length = 1 :=
  ⟨rfl, rfl, rfl, rfl, rfl, rfl, rfl, rfl, rfl, rfl, rfl⟩

/-- C9: with render mode `"headless"` (anything other than `"saved"`),
`save_video` logs the warning but is *not* a no-op: it still opens the
output file (creating it) and writes the buffered frames. -/
theorem save_video_not_noop :
    (saveVideo envHeadless).warned = true
    ∧ (saveVideo envHeadless).fileOpened = true
    ∧ (saveVideo envHeadless).framesWritten = [7] :=
  ⟨rfl, rfl, rfl⟩

/-- C10: for any render mode other than `"headless"` (supported or not),
when less than the effective render interval has elapsed since the last
captured frame, `render` returns without raising and leaves the
environment — frame buffer and last-render timestamp included —
unchanged: the unsupported-mode error branch is unreachable whenever no
frame is due. -/
theorem render_skips_before_interval (e : Env) (lr : ℚ)
    (h1 : e.cfg.renderMode ≠ "headless")
    (h2 : e.lastRenderTime = some lr)
    (h3 : e.currTime < lr + e.cfg.effRenderInterval) :
    renderEnv e = Except.ok e := by
  have hb : (e.cfg.renderMode == "headless") = false := beq_eq_false_iff_ne.mpr h1
  have hw : renderWait e = true := by
    unfold renderWait
    rw [h2]
    exact decide_eq_true h3
  unfold renderEnv
  rw [hb, hw]
  simp

/-- C10 witness: a `"human"`-mode environment whose last captured frame
is recent returns unchanged from `render` without raising. -/
theorem render_skips_before_interval_witness :
    renderEnv envHumanWaiting = Except.ok envHumanWaiting :=
  render_skips_before_interval envHumanWaiting 0 (by decide) rfl
    (by simp only [envHumanWaiting, envSaved, cfgHuman, cfgSaved]; norm_num)

theorem stepEnv_cfg (dyn : List ℚ → PhysState → PhysState) (a : List ℚ) (e : Env) :
    (stepEnv dyn a e).env.cfg = e.cfg := rfl

theorem stepEnv_lastRender (dyn : List ℚ → PhysState → PhysState) (a : List ℚ)
    (e : Env) : (stepEnv dyn a e).env.lastRenderTime = e.lastRenderTime := rfl

theorem resetEnv_cfg (p0 : PhysState) (e : Env) : (resetEnv p0 e).2.cfg = e.cfg := rfl

theorem resetEnv_lastRender (p0 : PhysState) (e : Env) :
    (resetEnv p0 e).2.lastRenderTime = none := rfl

theorem renderEnv_headless (e : Env) (h : e.cfg.renderMode = "headless") :
    renderEnv e = Except.ok e := by
  unfold renderEnv
  rw [show (e.cfg.renderMode == "headless") = true from beq_iff_eq.mpr h]
  simp

theorem renderEnv_unsupported (e : Env) (h1 : e.cfg.renderMode ≠ "saved")
    (h2 : e.cfg.renderMode ≠ "headless") (h3 : e.lastRenderTime = none) :
    renderEnv e = Except.error () := by
  have hb1 : (e.cfg.renderMode == "headless") = false := beq_eq_false_iff_ne.mpr h2
  have hb2 : (e.cfg.renderMode == "saved") = false := beq_eq_false_iff_ne.mpr h1
  have hw : renderWait e = false := by
    unfold renderWait
    rw [h3]
  unfold renderEnv
  rw [hb1, hw, hb2]
  simp

theorem runOp_inv (dyn : List ℚ → PhysState → PhysState) (p0 : PhysState)
    (op : EnvOp) (e : Env) (hm : e.cfg.renderMode ≠ "saved")
    (h : e.lastRenderTime = none) :
    (runOp dyn p0 e op).cfg = e.cfg ∧ (runOp dyn p0 e op).lastRenderTime = none := by
  cases op with
  | act a => exact ⟨rfl, by rw [runOp, stepEnv_lastRender]; exact h⟩
  | reset => exact ⟨rfl, rfl⟩
  | render =>
      by_cases hh : e.cfg.renderMode = "headless"
      · rw [runOp, renderEnv_headless e hh]
        exact ⟨rfl, h⟩
      · rw [runOp, renderEnv_unsupported e hm hh h]
        exact ⟨rfl, h⟩

theorem runOps_inv (dyn : List ℚ → PhysState → PhysState) (p0 : PhysState) :
    ∀ (ops : List EnvOp) (e : Env),
      e.cfg.renderMode ≠ "saved" → e.lastRenderTime = none →
      (runOps dyn p0 e ops).cfg = e.cfg
        ∧ (runOps dyn p0 e ops).lastRenderTime = none := by
  intro ops
  induction ops with
  | nil => intro e _ h; exact ⟨rfl, h⟩
  | cons op rest ih =>
      intro e hm h
      have h1 := runOp_inv dyn p0 op e hm h
      have h2 := ih (runOp dyn p0 e op) (by rw [h1.1]; exact hm) h1.2
      exact ⟨h2.1.trans h1.1, h2.2⟩

/-- C8: for a render mode outside the two supported ones, *every* call to
`render` — in any state reachable from construction by any sequence of
step/reset/render operations — raises `NotImplementedError`, surfaced
immediately on that call.  (The time-gate never suppresses the error in
such a mode because the last-render timestamp is stamped only by the
`"saved"` capture branch and thus stays at its `-inf` sentinel.) -/
theorem render_unsupported_always_raises (dyn : List ℚ → PhysState → PhysState)
    (p0 : PhysState) (cfg : EnvCfg) (ops : List EnvOp)
    (h1 : cfg.renderMode ≠ "saved") (h2 : cfg.renderMode ≠ "headless") :
    renderEnv (runOps dyn p0 (mkEnv p0 cfg) ops) = Except.error () := by
  have hinv := runOps_inv dyn p0 ops (mkEnv p0 cfg) h1 rfl
  exact renderEnv_unsupported _ (by rw [hinv.1]; exact h1)
    (by rw [hinv.1]; exact h2) hinv.2

/-- C8 witness: in `"human"` mode, after a step, `render` raises. -/
theorem render_unsupported_always_raises_witness :
    renderEnv (runOps dyn0 physState0 (mkEnv physState0 cfgHuman)
        [EnvOp.act [1], EnvOp.render])
      = Except.error () :=
  render_unsupported_always_raises dyn0 physState0 cfgHuman
    [EnvOp.act [1], EnvOp.render] (by decide) (by decide)
